import Mathlib

/-!
Shallow embedding of the signal-parsing and order-sizing core of
`src/trading_bot.py` (classes `SignalParser` and `BybitTrader`).

Python floats are modelled as exact rationals (`ℚ`); Python `str`
values as Lean `String` / `List Char`.  Regular-expression searches
from the source are embedded as explicit left-to-right scans that
reproduce the leftmost-match semantics of `re.search` for the
concrete patterns appearing in the source (for each of those
patterns, greedy matching with backtracking is equivalent to the
maximal-run scans below, because the character following each
greedy class can never itself belong to the class).
-/

namespace TradingBot

/-- Whitespace, as recognised by Python's `str.strip` and the regex
class `\s` (ASCII range, which is all the source's patterns meet). -/
def pyIsSpace (c : Char) : Bool :=
  c = ' ' || c = '\t' || c = '\n' || c = '\x0d' || c = '\x0b' || c = '\x0c'

/-- Python `str.strip()`: drop whitespace from both ends. -/
def pyStrip (l : List Char) : List Char :=
  ((l.dropWhile pyIsSpace).reverse.dropWhile pyIsSpace).reverse

/-- The text normalisation at the top of `parse_signal`
(`text = text.upper().strip()`, line 108). -/
def pyClean (input : String) : List Char :=
  pyStrip (input.data.map Char.toUpper)

/-- Character class `[A-Z0-9]` (the text has already been uppercased). -/
def alnumUpper (c : Char) : Bool :=
  ('A' ≤ c && c ≤ 'Z') || ('0' ≤ c && c ≤ '9')

/-- Character class `[\d.]`. -/
def digitDot (c : Char) : Bool :=
  c.isDigit || c = '.'

/-- `pat.isPrefixOf l` for char lists. -/
def isPre (pat l : List Char) : Bool :=
  List.isPrefixOf pat l

/-- Python `pat in text` (substring containment). -/
def containsSub (pat : List Char) : List Char → Bool
  | [] => isPre pat []
  | c :: rest => isPre pat (c :: rest) || containsSub pat rest

/-- `re.search(r'(LONG|SHORT)', text)` (line 118): leftmost occurrence,
alternation tried left to right at each position. -/
def findDirection : List Char → Option String
  | [] => none
  | c :: rest =>
    if isPre "LONG".data (c :: rest) then some "LONG"
    else if isPre "SHORT".data (c :: rest) then some "SHORT"
    else findDirection rest

/-- `re.search(r'([A-Z0-9]+)/USDT', text)` (line 124): leftmost position
where a nonempty `[A-Z0-9]` run is immediately followed by `/USDT`;
returns the captured run.  The run is the maximal one starting at the
match position, since `/` is not in the class. -/
def findSymbol : List Char → Option String
  | [] => none
  | c :: rest =>
    let run := (c :: rest).takeWhile alnumUpper
    if run ≠ [] && isPre "/USDT".data ((c :: rest).dropWhile alnumUpper)
    then some (String.mk run)
    else findSymbol rest

/-- `'LIMIT ORDER' in text` (line 130). -/
def hasLimitOrder (text : List Char) : Bool :=
  containsSub "LIMIT ORDER".data text

/-- One attempt of `KEY` + `\s*`/`\s+` (per `wsRequired`) + a nonempty
run of class `cls`, at the head of `l`; returns the captured run. -/
def keyNumAt (key : List Char) (wsRequired : Bool) (cls : Char → Bool)
    (l : List Char) : Option String :=
  if isPre key l then
    let after := (l.drop key.length)
    if wsRequired && (after.takeWhile pyIsSpace) = [] then none
    else
      let body := after.dropWhile pyIsSpace
      let run := body.takeWhile cls
      if run = [] then none else some (String.mk run)
  else none

/-- Leftmost match of `KEY` + whitespace + class run (embeds the
`re.search` calls for `LIMIT ORDER`, `LEVERAGE:`, `TP:`, `SL:`). -/
def searchKeyNum (key : List Char) (wsRequired : Bool) (cls : Char → Bool) :
    List Char → Option String
  | [] => none
  | c :: rest =>
    match keyNumAt key wsRequired cls (c :: rest) with
    | some g => some g
    | none => searchKeyNum key wsRequired cls rest

/-- `re.search(r'LIMIT ORDER\s+([\d.]+)', text)` (line 132). -/
def searchLimitPrice (text : List Char) : Option String :=
  searchKeyNum "LIMIT ORDER".data true digitDot text

/-- `re.search(r'LEVERAGE:\s*(\d+)X?', text)` (line 139); the optional
`X?` never constrains the match. -/
def searchLeverage (text : List Char) : Option String :=
  searchKeyNum "LEVERAGE:".data false Char.isDigit text

/-- `re.search(r'TP:\s*([\d.]+)', text)` (line 144). -/
def searchTp (text : List Char) : Option String :=
  searchKeyNum "TP:".data false digitDot text

/-- `re.search(r'SL:\s*([\d.]+)', text)` (line 149). -/
def searchSl (text : List Char) : Option String :=
  searchKeyNum "SL:".data false digitDot text

/-- One attempt of `USE\s+(\d+)%\s+OF\s+CAPITAL` at the head of `l`. -/
def riskAt (l : List Char) : Option String :=
  if isPre "USE".data l then
    let r1 := l.drop 3
    if (r1.takeWhile pyIsSpace) = [] then none
    else
      let r2 := r1.dropWhile pyIsSpace
      let ds := r2.takeWhile Char.isDigit
      if ds = [] then none
      else
        match r2.dropWhile Char.isDigit with
        | '%' :: r4 =>
          if (r4.takeWhile pyIsSpace) = [] then none
          else
            let r5 := r4.dropWhile pyIsSpace
            if isPre "OF".data r5 then
              let r6 := r5.drop 2
              if (r6.takeWhile pyIsSpace) = [] then none
              else if isPre "CAPITAL".data (r6.dropWhile pyIsSpace) then
                some (String.mk ds)
              else none
            else none
        | _ => none
  else none

/-- `re.search(r'USE\s+(\d+)%\s+OF\s+CAPITAL', text)` (line 154). -/
def searchRisk : List Char → Option String
  | [] => none
  | c :: rest =>
    match riskAt (c :: rest) with
    | some g => some g
    | none => searchRisk rest

/-- Numeric value of a digit string. -/
def natVal (cs : List Char) : ℕ :=
  cs.foldl (fun n c => 10 * n + (c.toNat - '0'.toNat)) 0

/-- Value of a decimal literal over digits and at most one dot,
`none` when Python `float()` would raise `ValueError` on it. -/
def decimalVal (cs : List Char) : Option ℚ :=
  let ip := cs.takeWhile (fun c => c ≠ '.')
  if ip.all Char.isDigit then
    match cs.dropWhile (fun c => c ≠ '.') with
    | [] => if ip = [] then none else some (natVal ip : ℚ)
    | '.' :: fp =>
      if fp.all Char.isDigit && (ip ≠ [] || fp ≠ []) then
        some ((natVal ip : ℚ) + (natVal fp : ℚ) / (10 : ℚ) ^ fp.length)
      else none
    | _ => none
  else none

/-- Python `float(s)` on simple decimal literals (optional surrounding
whitespace, optional sign, digits with at most one dot); other forms
are treated as conversion failures.  Every string the source converts
is drawn from the classes `[\d.]+` / `\d+` or is a venue-supplied
decimal, so this subset is the semantics the source exercises. -/
def pyFloat (s : String) : Option ℚ :=
  let cs := ((s.data.dropWhile pyIsSpace).reverse.dropWhile pyIsSpace).reverse
  match cs with
  | '-' :: rest => (decimalVal rest).map (fun q => -q)
  | '+' :: rest => decimalVal rest
  | _ => decimalVal cs

/-- `round` to the nearest integer, ties to even (Python 3 `round`). -/
def roundHalfEven (q : ℚ) : ℤ :=
  let f := ⌊q⌋
  let r := q - (f : ℚ)
  if r < 1 / 2 then f
  else if 1 / 2 < r then f + 1
  else if f % 2 = 0 then f else f + 1

/-- Python `round(q, n)` on exact rationals. -/
def pyRound (n : ℕ) (q : ℚ) : ℚ :=
  (roundHalfEven (q * (10 : ℚ) ^ n) : ℚ) / (10 : ℚ) ^ n

/-- `TradingSignal` (lines 25–35); numeric fields as exact rationals. -/
structure TradingSignal where
  direction : String
  symbol : String
  order_type : String
  entry_price : Option ℚ := none
  take_profit : ℚ := 0
  stop_loss : ℚ := 0
  leverage : ℤ := 10
  risk_percentage : ℚ := 5
  deriving DecidableEq

/-- Lines 130–136: order type and entry price.  A matched price token
that `float()` rejects raises (caught only by the outer handler). -/
def limitPriceOf (text : List Char) : Except String (Option ℚ) :=
  if hasLimitOrder text then
    match searchLimitPrice text with
    | none => Except.ok none
    | some tok =>
      match pyFloat tok with
      | none => Except.error "could not convert string to float"
      | some q => Except.ok (some q)
  else Except.ok none

/-- Lines 144–146: take profit; a matched token `float()` rejects raises. -/
def tpOf (text : List Char) : Except String ℚ :=
  match searchTp text with
  | none => Except.ok 0
  | some tok =>
    match pyFloat tok with
    | none => Except.error "could not convert string to float"
    | some q => Except.ok q

/-- Lines 149–151: stop loss; a matched token `float()` rejects raises. -/
def slOf (text : List Char) : Except String ℚ :=
  match searchSl text with
  | none => Except.ok 0
  | some tok =>
    match pyFloat tok with
    | none => Except.error "could not convert string to float"
    | some q => Except.ok q

/-- Lines 139–141: leverage; the captured group is all digits, so
`int()` never fails. -/
def leverageOf (text : List Char) : ℤ :=
  match searchLeverage text with
  | none => 10
  | some tok => (natVal tok.data : ℤ)

/-- Lines 154–156: risk percentage; the captured group is all digits,
so `float()` never fails. -/
def riskOf (text : List Char) : ℚ :=
  match searchRisk text with
  | none => 5
  | some tok => (natVal tok.data : ℚ)

/-- The body of the `try` block of `SignalParser.parse_signal`
(lines 106–158): `Except.error` marks a raised exception. -/
def parse_core (input : String) : Except String (Option TradingSignal) :=
  let text := pyClean input
  match findDirection text with
  | none => Except.ok none
  | some dir =>
    match findSymbol text with
    | none => Except.ok none
    | some base =>
      match limitPriceOf text with
      | Except.error e => Except.error e
      | Except.ok ep =>
        match tpOf text with
        | Except.error e => Except.error e
        | Except.ok tp =>
          match slOf text with
          | Except.error e => Except.error e
          | Except.ok sl =>
            Except.ok (some
              { direction := dir
                symbol := base ++ "USDT"
                order_type := if hasLimitOrder text then "LIMIT" else "MARKET"
                entry_price := ep
                take_profit := tp
                stop_loss := sl
                leverage := leverageOf text
                risk_percentage := riskOf text })

/-- `SignalParser.parse_signal` (lines 92–162): the `except` handler
(lines 160–162) converts any raised exception to `None`. -/
def parse_signal (input : String) : Option TradingSignal :=
  match parse_core input with
  | Except.ok r => r
  | Except.error _ => none

/-- One entry of the wallet-balance coin list. -/
structure Coin where
  coin : String
  walletBalance : String
  deriving DecidableEq

/-- One account entry of the wallet-balance `list`. -/
structure BalanceAccount where
  coin : List Coin
  deriving DecidableEq

/-- The `result` payload of `get_wallet_balance`. -/
structure BalanceResult where
  list : List BalanceAccount
  deriving DecidableEq

/-- The dictionary returned by `get_wallet_balance`: the empty dict,
a dict without a `result` key, or one carrying a result. -/
inductive BalanceResp where
  | emptyDict : BalanceResp
  | noResult : BalanceResp
  | withResult (r : BalanceResult) : BalanceResp
  deriving DecidableEq

/-- One entry of the ticker `list`. -/
structure TickerEntry where
  lastPrice : String
  deriving DecidableEq

/-- The response of `get_tickers`. -/
structure TickerResp where
  retCode : ℤ
  list : List TickerEntry
  deriving DecidableEq

/-- A venue response carrying only a return code (`set_leverage`,
`place_order`). -/
structure SubmitResp where
  retCode : ℤ
  deriving DecidableEq

deriving instance DecidableEq for Except

/-- The behaviour of the opaque venue (`self.session`) during one
`place_order` attempt: each call's outcome, `Except.error` marking a
raised exception in the client. -/
structure Venue where
  balanceRaw : Except String BalanceResp
  ticker : Except String TickerResp
  submit : Except String SubmitResp
  leverageResp : Except String SubmitResp
  deriving DecidableEq

/-- `BybitTrader.get_account_balance` (lines 174–181): its own
`except` handler converts any client exception to the empty dict. -/
def get_account_balance (v : Venue) : BalanceResp :=
  match v.balanceRaw with
  | Except.error _ => BalanceResp.emptyDict
  | Except.ok b => b

/-- `BybitTrader.set_leverage` (lines 256–268): its own `except`
handler converts any client exception to `False`. -/
def set_leverage (v : Venue) : Bool :=
  match v.leverageResp with
  | Except.error _ => false
  | Except.ok r => r.retCode == 0

/-- The loop of lines 195–199: first coin whose code is `USDT` sets
the balance (via `float`, which can raise); otherwise it stays `0`. -/
def scanUsdt (coins : List Coin) : Except String ℚ :=
  match coins.find? (fun c => c.coin = "USDT") with
  | none => Except.ok 0
  | some c =>
    match pyFloat c.walletBalance with
    | none => Except.error "could not convert string to float"
    | some q => Except.ok q

/-- Lines 190–202: fetch the balance snapshot, reject an empty or
resultless snapshot, index `list[0]` (an empty list raises), scan the
coin list, and reject a zero USDT balance. -/
def fetch_usdt (v : Venue) : Except String ℚ :=
  match get_account_balance v with
  | BalanceResp.emptyDict => Except.error "Could not fetch account balance"
  | BalanceResp.noResult => Except.error "Could not fetch account balance"
  | BalanceResp.withResult r =>
    match r.list.head? with
    | none => Except.error "list index out of range"
    | some acct =>
      match scanUsdt acct.coin with
      | Except.error e => Except.error e
      | Except.ok usdt =>
        if usdt = 0 then Except.error "No USDT balance found"
        else Except.ok usdt

/-- Lines 207–213: for a MARKET order, query the ticker and backfill
`signal.entry_price` with the parsed last-traded price; every failure
raises before the mutation.  Other order types leave the signal as is. -/
def resolve_entry (v : Venue) (s : TradingSignal) :
    Except String TradingSignal :=
  if s.order_type = "MARKET" then
    match v.ticker with
    | Except.error e => Except.error e
    | Except.ok t =>
      if t.retCode ≠ 0 then Except.error "Could not fetch ticker data"
      else
        match t.list.head? with
        | none => Except.error "list index out of range"
        | some e0 =>
          match pyFloat e0.lastPrice with
          | none => Except.error "could not convert string to float"
          | some q => Except.ok { s with entry_price := some q }
  else Except.ok s

/-- The order-request dictionary of lines 225–242; numeric values are
kept as exact rationals (`str()` in the source is value-faithful). -/
structure OrderParams where
  category : String
  symbol : String
  side : String
  orderType : String
  qty : ℚ
  timeInForce : String
  price : Option ℚ
  takeProfit : Option ℚ
  stopLoss : Option ℚ
  deriving DecidableEq

/-- The dictionary `place_order` returns: lines 246–250 on a completed
submission, line 254 after a caught exception. -/
structure OrderResult where
  success : Bool
  result : Option SubmitResp
  order_params : Option OrderParams
  error : Option String
  deriving DecidableEq

/-- The result of the `except` handler at line 254. -/
def mkError (msg : String) : OrderResult :=
  { success := false, result := none, order_params := none, error := some msg }

/-- `BybitTrader.place_order` (lines 183–254).  The second component
is the final state of the (mutable) signal object, which persists
even when a later step raises.  Each `Except.error` of a helper is a
raised exception, caught by the handler at lines 252–254. -/
def place_order (v : Venue) (signal : TradingSignal)
    (user_leverage : ℤ) (user_risk : ℚ) : OrderResult × TradingSignal :=
  let _ := set_leverage v
  match fetch_usdt v with
  | Except.error e => (mkError e, signal)
  | Except.ok usdt_balance =>
    let risk_amount := usdt_balance * (user_risk / 100)
    match resolve_entry v signal with
    | Except.error e => (mkError e, signal)
    | Except.ok signal1 =>
      match signal1.entry_price with
      | none => (mkError "unsupported operand type for division", signal1)
      | some entry =>
        if entry = 0 then (mkError "float division by zero", signal1)
        else
          let qty := pyRound 6 (risk_amount * (user_leverage : ℚ) / entry)
          let side := if signal1.direction = "LONG" then "Buy" else "Sell"
          let order_params : OrderParams :=
            { category := "linear"
              symbol := signal1.symbol
              side := side
              orderType := if signal1.order_type = "MARKET" then "Market" else "Limit"
              qty := qty
              timeInForce := "GTC"
              price := if signal1.order_type = "LIMIT" then some entry else none
              takeProfit := if signal1.take_profit > 0 then some signal1.take_profit else none
              stopLoss := if signal1.stop_loss > 0 then some signal1.stop_loss else none }
          match v.submit with
          | Except.error e => (mkError e, signal1)
          | Except.ok resp =>
            ({ success := resp.retCode == 0
               result := some resp
               order_params := some order_params
               error := none }, signal1)

/-! ### Inversion lemmas -/

/-- Complete case analysis of one `place_order` run. -/
lemma place_order_spec (v : Venue) (s : TradingSignal) (lev : ℤ) (risk : ℚ) :
    (∃ e, fetch_usdt v = Except.error e ∧
      place_order v s lev risk = (mkError e, s)) ∨
    (∃ b, fetch_usdt v = Except.ok b ∧
      ((∃ e, resolve_entry v s = Except.error e ∧
        place_order v s lev risk = (mkError e, s)) ∨
       (∃ s1, resolve_entry v s = Except.ok s1 ∧
         ((s1.entry_price = none ∧
           place_order v s lev risk =
             (mkError "unsupported operand type for division", s1)) ∨
          (∃ entry, s1.entry_price = some entry ∧
            ((entry = 0 ∧
              place_order v s lev risk = (mkError "float division by zero", s1)) ∨
             (entry ≠ 0 ∧
               ((∃ e, v.submit = Except.error e ∧
                 place_order v s lev risk = (mkError e, s1)) ∨
                (∃ resp, v.submit = Except.ok resp ∧
                  place_order v s lev risk =
                    ({ success := resp.retCode == 0
                       result := some resp
                       order_params := some
                         { category := "linear"
                           symbol := s1.symbol
                           side := if s1.direction = "LONG" then "Buy" else "Sell"
                           orderType := if s1.order_type = "MARKET" then "Market" else "Limit"
                           qty := pyRound 6 (b * (risk / 100) * (lev : ℚ) / entry)
                           timeInForce := "GTC"
                           price := if s1.order_type = "LIMIT" then some entry else none
                           takeProfit := if s1.take_profit > 0 then some s1.take_profit else none
                           stopLoss := if s1.stop_loss > 0 then some s1.stop_loss else none }
                       error := none }, s1)))))))))) := by
  rcases hfb : fetch_usdt v with e | b
  · exact Or.inl ⟨e, rfl, by unfold place_order; rw [hfb]⟩
  · refine Or.inr ⟨b, rfl, ?_⟩
    rcases hre : resolve_entry v s with e | s1
    · exact Or.inl ⟨e, rfl, by unfold place_order; rw [hfb, hre]⟩
    · refine Or.inr ⟨s1, rfl, ?_⟩
      rcases hep : s1.entry_price with _ | entry
      · exact Or.inl ⟨rfl, by unfold place_order; rw [hfb, hre]; dsimp only; rw [hep]⟩
      · refine Or.inr ⟨entry, rfl, ?_⟩
        by_cases h0 : entry = 0
        · exact Or.inl ⟨h0,
            by unfold place_order; rw [hfb, hre]; dsimp only; rw [hep]; dsimp only; rw [if_pos h0]⟩
        · refine Or.inr ⟨h0, ?_⟩
          rcases hsub : v.submit with e | resp
          · exact Or.inl ⟨e, rfl,
              by unfold place_order; rw [hfb, hre]; dsimp only; rw [hep]; dsimp only
                 rw [if_neg h0, hsub]⟩
          · exact Or.inr ⟨resp, rfl,
              by unfold place_order; rw [hfb, hre]; dsimp only; rw [hep]; dsimp only
                 rw [if_neg h0, hsub]⟩

/-- A failed balance fetch short-circuits `place_order`. -/
lemma place_order_of_fetch_error (v : Venue) (s : TradingSignal) (lev : ℤ)
    (risk : ℚ) (m : String) (h : fetch_usdt v = Except.error m) :
    place_order v s lev risk = (mkError m, s) := by
  unfold place_order
  rw [h]

/-- `fetch_usdt` reads only the balance response. -/
lemma fetch_usdt_submit_free (v : Venue) (sub : Except String SubmitResp) :
    fetch_usdt { v with submit := sub } = fetch_usdt v := rfl

/-- `resolve_entry` changes no field other than `entry_price`. -/
lemma resolve_entry_fields (v : Venue) (s s1 : TradingSignal)
    (h : resolve_entry v s = Except.ok s1) :
    s1.direction = s.direction ∧ s1.symbol = s.symbol ∧
    s1.order_type = s.order_type ∧ s1.take_profit = s.take_profit ∧
    s1.stop_loss = s.stop_loss ∧ s1.leverage = s.leverage ∧
    s1.risk_percentage = s.risk_percentage := by
  unfold resolve_entry at h
  by_cases hm : s.order_type = "MARKET"
  · rw [if_pos hm] at h
    rcases ht : v.ticker with e | t
    · rw [ht] at h; cases h
    · rw [ht] at h
      simp only at h
      by_cases hrc : t.retCode ≠ 0
      · rw [if_pos hrc] at h; cases h
      · rw [if_neg hrc] at h
        rcases hh : t.list.head? with _ | e0
        · rw [hh] at h; cases h
        · rw [hh] at h
          simp only at h
          rcases hq : pyFloat e0.lastPrice with _ | q
          · rw [hq] at h; cases h
          · rw [hq] at h
            simp only at h
            cases h
            exact ⟨rfl, rfl, rfl, rfl, rfl, rfl, rfl⟩
  · rw [if_neg hm] at h
    cases h
    exact ⟨rfl, rfl, rfl, rfl, rfl, rfl, rfl⟩

/-- `resolve_entry` either returns the signal unchanged, or the order
is a MARKET order and only `entry_price` is backfilled with the parsed
last-traded price of the venue's ticker response. -/
lemma resolve_entry_spec (v : Venue) (s s1 : TradingSignal)
    (h : resolve_entry v s = Except.ok s1) :
    s1 = s ∨
    (s.order_type = "MARKET" ∧ ∃ t e0 q, v.ticker = Except.ok t ∧
      t.retCode = 0 ∧ t.list.head? = some e0 ∧ pyFloat e0.lastPrice = some q ∧
      s1 = { s with entry_price := some q }) := by
  unfold resolve_entry at h
  by_cases hm : s.order_type = "MARKET"
  · rw [if_pos hm] at h
    rcases ht : v.ticker with e | t
    · rw [ht] at h; cases h
    · rw [ht] at h
      simp only at h
      by_cases hrc : t.retCode ≠ 0
      · rw [if_pos hrc] at h; cases h
      · rw [if_neg hrc] at h
        rcases hh : t.list.head? with _ | e0
        · rw [hh] at h; cases h
        · rw [hh] at h
          simp only at h
          rcases hq : pyFloat e0.lastPrice with _ | q
          · rw [hq] at h; cases h
          · rw [hq] at h
            simp only at h
            cases h
            exact Or.inr ⟨hm, t, e0, q, rfl, by omega, hh, hq, rfl⟩
  · rw [if_neg hm] at h
    cases h
    exact Or.inl rfl

/-- Complete case analysis of one `parse_signal` run. -/
lemma parse_signal_spec (t : String) :
    (findDirection (pyClean t) = none ∧ parse_signal t = none) ∨
    (∃ dir, findDirection (pyClean t) = some dir ∧
      ((findSymbol (pyClean t) = none ∧ parse_signal t = none) ∨
       (∃ base, findSymbol (pyClean t) = some base ∧
         ((∃ e, limitPriceOf (pyClean t) = Except.error e ∧ parse_signal t = none) ∨
          (∃ ep, limitPriceOf (pyClean t) = Except.ok ep ∧
            ((∃ e, tpOf (pyClean t) = Except.error e ∧ parse_signal t = none) ∨
             (∃ tp, tpOf (pyClean t) = Except.ok tp ∧
               ((∃ e, slOf (pyClean t) = Except.error e ∧ parse_signal t = none) ∨
                (∃ sl, slOf (pyClean t) = Except.ok sl ∧
                  parse_signal t = some
                    { direction := dir
                      symbol := base ++ "USDT"
                      order_type := if hasLimitOrder (pyClean t) then "LIMIT" else "MARKET"
                      entry_price := ep
                      take_profit := tp
                      stop_loss := sl
                      leverage := leverageOf (pyClean t)
                      risk_percentage := riskOf (pyClean t) }))))))))) := by
  rcases hd : findDirection (pyClean t) with _ | dir
  · exact Or.inl ⟨rfl, by unfold parse_signal parse_core; dsimp only; rw [hd]⟩
  · refine Or.inr ⟨dir, rfl, ?_⟩
    rcases hs : findSymbol (pyClean t) with _ | base
    · exact Or.inl ⟨rfl,
        by unfold parse_signal parse_core; dsimp only; rw [hd]; dsimp only; rw [hs]⟩
    · refine Or.inr ⟨base, rfl, ?_⟩
      rcases hlp : limitPriceOf (pyClean t) with e | ep
      · exact Or.inl ⟨e, rfl,
          by unfold parse_signal parse_core; dsimp only; rw [hd]; dsimp only; rw [hs]
             dsimp only; rw [hlp]⟩
      · refine Or.inr ⟨ep, rfl, ?_⟩
        rcases htp : tpOf (pyClean t) with e | tp
        · exact Or.inl ⟨e, rfl,
            by unfold parse_signal parse_core; dsimp only; rw [hd]; dsimp only; rw [hs]
               dsimp only; rw [hlp]; dsimp only; rw [htp]⟩
        · refine Or.inr ⟨tp, rfl, ?_⟩
          rcases hsl : slOf (pyClean t) with e | sl
          · exact Or.inl ⟨e, rfl,
              by unfold parse_signal parse_core; dsimp only; rw [hd]; dsimp only; rw [hs]
                 dsimp only; rw [hlp]; dsimp only; rw [htp]; dsimp only; rw [hsl]⟩
          · refine Or.inr ⟨sl, rfl, ?_⟩
            unfold parse_signal parse_core
            dsimp only
            rw [hd]; dsimp only; rw [hs]; dsimp only
            rw [hlp]; dsimp only; rw [htp]; dsimp only; rw [hsl]

/-- A raised exception in the `try` block yields `None`. -/
lemma parse_signal_of_core_error (t : String) (e : String)
    (h : parse_core t = Except.error e) : parse_signal t = none := by
  unfold parse_signal
  rw [h]

/-- No `TP:` numeric match leaves the take profit at its default. -/
lemma tpOf_of_search_none (text : List Char) (h : searchTp text = none) :
    tpOf text = Except.ok 0 := by
  unfold tpOf
  rw [h]

/-- No `SL:` numeric match leaves the stop loss at its default. -/
lemma slOf_of_search_none (text : List Char) (h : searchSl text = none) :
    slOf text = Except.ok 0 := by
  unfold slOf
  rw [h]

/-- No `LEVERAGE:` numeric match leaves the leverage at its default. -/
lemma leverageOf_of_search_none (text : List Char) (h : searchLeverage text = none) :
    leverageOf text = 10 := by
  unfold leverageOf
  rw [h]

/-- No capital-percentage match leaves the risk at its default. -/
lemma riskOf_of_search_none (text : List Char) (h : searchRisk text = none) :
    riskOf text = 5 := by
  unfold riskOf
  rw [h]

/-- A convertible (or absent) `TP:` token never raises. -/
lemma tpOf_ok (text : List Char)
    (h : ∀ tok, searchTp text = some tok → (pyFloat tok).isSome) :
    ∃ q, tpOf text = Except.ok q := by
  unfold tpOf
  rcases hs : searchTp text with _ | tok
  · exact ⟨0, rfl⟩
  · dsimp only
    rcases hq : pyFloat tok with _ | q
    · have := h tok hs
      simp [hq] at this
    · exact ⟨q, rfl⟩

/-- A convertible (or absent) `SL:` token never raises. -/
lemma slOf_ok (text : List Char)
    (h : ∀ tok, searchSl text = some tok → (pyFloat tok).isSome) :
    ∃ q, slOf text = Except.ok q := by
  unfold slOf
  rcases hs : searchSl text with _ | tok
  · exact ⟨0, rfl⟩
  · dsimp only
    rcases hq : pyFloat tok with _ | q
    · have := h tok hs
      simp [hq] at this
    · exact ⟨q, rfl⟩

/-- A convertible (or absent) limit-price token never raises. -/
lemma limitPriceOf_ok (text : List Char)
    (h : ∀ tok, searchLimitPrice text = some tok → (pyFloat tok).isSome) :
    ∃ ep, limitPriceOf text = Except.ok ep := by
  unfold limitPriceOf
  by_cases hl : hasLimitOrder text
  · rw [if_pos hl]
    rcases hs : searchLimitPrice text with _ | tok
    · exact ⟨none, rfl⟩
    · dsimp only
      rcases hq : pyFloat tok with _ | q
      · have := h tok hs
        simp [hq] at this
      · exact ⟨some q, rfl⟩
  · rw [if_neg hl]
    exact ⟨none, rfl⟩

/-- Without `LIMIT ORDER` in the text the parsed entry price is unset. -/
lemma limitPriceOf_of_not_limit (text : List Char) (ep : Option ℚ)
    (hl : hasLimitOrder text = false) (h : limitPriceOf text = Except.ok ep) :
    ep = none := by
  unfold limitPriceOf at h
  rw [hl] at h
  cases h
  rfl

/-- With `LIMIT ORDER` present, the parsed entry price is exactly the
converted first matched price token (unset when no token matches). -/
lemma limitPriceOf_of_limit (text : List Char) (ep : Option ℚ)
    (hl : hasLimitOrder text = true) (h : limitPriceOf text = Except.ok ep) :
    ep = (searchLimitPrice text).bind (fun tok => pyFloat tok) := by
  unfold limitPriceOf at h
  rw [if_pos hl] at h
  rcases hs : searchLimitPrice text with _ | tok
  · rw [hs] at h
    cases h
    rfl
  · rw [hs] at h
    dsimp only at h
    rcases hq : pyFloat tok with _ | q
    · rw [hq] at h
      cases h
    · rw [hq] at h
      cases h
      exact hq.symm

/-! ### Concrete scenarios -/

/-- A venue with a 1000 USDT wallet, last price 50000, accepting orders. -/
def demoVenue : Venue :=
  { balanceRaw := Except.ok (BalanceResp.withResult
      { list := [{ coin := [{ coin := "USDT", walletBalance := "1000" }] }] })
    ticker := Except.ok { retCode := 0, list := [{ lastPrice := "50000" }] }
    submit := Except.ok { retCode := 0 }
    leverageResp := Except.ok { retCode := 0 } }

/-- A parsed MARKET long signal with no TP/SL requested. -/
def demoSignal : TradingSignal :=
  { direction := "LONG", symbol := "BTCUSDT", order_type := "MARKET" }

/-- The order request `place_order` assembles for `demoVenue` and
`demoSignal` with leverage 10 and risk 5. -/
def demoParams : OrderParams :=
  { category := "linear", symbol := "BTCUSDT", side := "Buy", orderType := "Market"
    qty := pyRound 6 (((1000 : ℕ) : ℚ) * ((5 : ℚ) / 100) * ((10 : ℤ) : ℚ) / ((50000 : ℕ) : ℚ))
    timeInForce := "GTC", price := none
    takeProfit := none, stopLoss := none }

/-- A venue whose USDT wallet balance is exactly zero. -/
def zeroVenue : Venue :=
  { balanceRaw := Except.ok (BalanceResp.withResult
      { list := [{ coin := [{ coin := "USDT", walletBalance := "0" }] }] })
    ticker := Except.ok { retCode := 0, list := [{ lastPrice := "50000" }] }
    submit := Except.ok { retCode := 0 }
    leverageResp := Except.ok { retCode := 0 } }

/-- A venue whose coin list has no USDT entry at all. -/
def noUsdtVenue : Venue :=
  { balanceRaw := Except.ok (BalanceResp.withResult
      { list := [{ coin := [{ coin := "BTC", walletBalance := "7" }] }] })
    ticker := Except.ok { retCode := 0, list := [{ lastPrice := "50000" }] }
    submit := Except.ok { retCode := 0 }
    leverageResp := Except.ok { retCode := 0 } }

/-- Rounding an integer value changes nothing. -/
lemma roundHalfEven_intCast (z : ℤ) : roundHalfEven ((z : ℚ)) = z := by
  unfold roundHalfEven
  rw [Int.floor_intCast]
  norm_num

/-- `pyRound` on a value whose scaling is integral. -/
lemma pyRound_eq (n : ℕ) (q : ℚ) (z : ℤ) (h : q * (10 : ℚ) ^ n = (z : ℚ)) :
    pyRound n q = (z : ℚ) / (10 : ℚ) ^ n := by
  unfold pyRound
  rw [h, roundHalfEven_intCast]

/-- The balance extraction on the demo venue yields 1000 USDT. -/
lemma fetch_usdt_demo : fetch_usdt demoVenue = Except.ok ((1000 : ℕ) : ℚ) := by
  unfold fetch_usdt get_account_balance demoVenue
  dsimp only
  simp only [List.head?]
  rw [show scanUsdt [{ coin := "USDT", walletBalance := "1000" }] =
    Except.ok ((1000 : ℕ) : ℚ) from rfl]
  dsimp only
  rw [if_neg (by norm_num : ¬ (((1000 : ℕ) : ℚ) = 0))]

/-- The demo run reaches submission with the expected order request
and the expected backfilled signal. -/
lemma demo_run :
    place_order demoVenue demoSignal 10 5 =
      ({ success := true, result := some { retCode := 0 }
         order_params := some demoParams, error := none },
       { demoSignal with entry_price := some ((50000 : ℕ) : ℚ) }) := by
  have hr : resolve_entry demoVenue demoSignal =
      Except.ok { demoSignal with entry_price := some ((50000 : ℕ) : ℚ) } := rfl
  unfold place_order
  rw [fetch_usdt_demo, hr]
  dsimp only
  rw [if_neg (by norm_num : ¬ (((50000 : ℕ) : ℚ) = 0))]
  rw [show demoVenue.submit = Except.ok { retCode := 0 } from rfl]
  rfl

/-! ### Claims -/

/-- Claim C1: whenever `place_order` assembles an order request, the
submitted quantity is `round(balance * (risk / 100) * leverage / entryPrice, 6)`,
where `balance` is the extracted USDT wallet balance and `entryPrice`
is the entry price carried by the signal after the run. -/
theorem claim1_qty_formula (v : Venue) (s : TradingSignal) (lev : ℤ) (risk : ℚ)
    (p : OrderParams) (hp : (place_order v s lev risk).1.order_params = some p) :
    ∃ b e, fetch_usdt v = Except.ok b ∧
      ((place_order v s lev risk).2).entry_price = some e ∧
      p.qty = pyRound 6 (b * (risk / 100) * (lev : ℚ) / e) := by
  rcases place_order_spec v s lev risk with ⟨e, _, heq⟩ | ⟨b, hb, hrest⟩
  · rw [heq] at hp
    simp [mkError] at hp
  · rcases hrest with ⟨e, _, heq⟩ | ⟨s1, hs1, hrest⟩
    · rw [heq] at hp
      simp [mkError] at hp
    · rcases hrest with ⟨hepn, heq⟩ | ⟨entry, hentry, hrest⟩
      · rw [heq] at hp
        simp [mkError] at hp
      · rcases hrest with ⟨h0, heq⟩ | ⟨h0, hrest⟩
        · rw [heq] at hp
          simp [mkError] at hp
        · rcases hrest with ⟨e, _, heq⟩ | ⟨resp, hresp, heq⟩
          · rw [heq] at hp
            simp [mkError] at hp
          · rw [heq] at hp
            simp only [Option.some.injEq] at hp
            refine ⟨b, entry, hb, ?_, ?_⟩
            · rw [heq]
              exact hentry
            · rw [← hp]

/-- Witness for C1 at the spec's concrete numbers: balance 1000, risk 5,
leverage 10, entry price 50000 give risk amount 50 and quantity 0.01. -/
theorem claim1_qty_formula_witness :
    (∃ b e, fetch_usdt demoVenue = Except.ok b ∧
      ((place_order demoVenue demoSignal 10 5).2).entry_price = some e ∧
      demoParams.qty = pyRound 6 (b * ((5 : ℚ) / 100) * ((10 : ℤ) : ℚ) / e)) ∧
    (1000 : ℚ) * ((5 : ℚ) / 100) = 50 ∧ demoParams.qty = 1 / 100 :=
  ⟨claim1_qty_formula demoVenue demoSignal 10 5 demoParams
      (by rw [demo_run]),
   by norm_num,
   by
    show pyRound 6 _ = _
    rw [pyRound_eq 6 _ 10000
      (by push_cast; norm_num)]
    norm_num⟩

/-- Claim C2: an empty balance snapshot, a snapshot without a result,
or an extracted USDT balance of exactly zero makes `place_order`
return a failure with an explicit balance-related error, leaving the
signal untouched; the outcome is the same for every submission
behaviour of the venue, so no order is submitted. -/
theorem claim2_balance_guard (v : Venue) (s : TradingSignal) (lev : ℤ) (risk : ℚ)
    (h : get_account_balance v = BalanceResp.emptyDict ∨
         get_account_balance v = BalanceResp.noResult ∨
         (∃ r acct, get_account_balance v = BalanceResp.withResult r ∧
           r.list.head? = some acct ∧ scanUsdt acct.coin = Except.ok 0)) :
    ∃ m, place_order v s lev risk = (mkError m, s) ∧
      (mkError m).success = false ∧ (mkError m).order_params = none ∧
      (m = "Could not fetch account balance" ∨ m = "No USDT balance found") ∧
      ∀ sub, place_order { v with submit := sub } s lev risk = (mkError m, s) := by
  have key : ∀ m, fetch_usdt v = Except.error m →
      (m = "Could not fetch account balance" ∨ m = "No USDT balance found") →
      ∃ m, place_order v s lev risk = (mkError m, s) ∧
        (mkError m).success = false ∧ (mkError m).order_params = none ∧
        (m = "Could not fetch account balance" ∨ m = "No USDT balance found") ∧
        ∀ sub, place_order { v with submit := sub } s lev risk = (mkError m, s) := by
    intro m hf hm
    exact ⟨m, place_order_of_fetch_error v s lev risk m hf, rfl, rfl, hm,
      fun sub => place_order_of_fetch_error _ s lev risk m
        ((fetch_usdt_submit_free v sub).trans hf)⟩
  rcases h with h | h | ⟨r, acct, hr, hh, hs⟩
  · refine key _ ?_ (Or.inl rfl)
    unfold fetch_usdt
    rw [h]
  · refine key _ ?_ (Or.inl rfl)
    unfold fetch_usdt
    rw [h]
  · refine key _ ?_ (Or.inr rfl)
    unfold fetch_usdt
    rw [hr]
    dsimp only
    rw [hh]
    dsimp only
    rw [hs]
    dsimp only
    rw [if_pos rfl]

/-- Witness for C2: a wallet whose USDT balance string is `"0"`. -/
theorem claim2_balance_guard_witness :
    ∃ m, place_order zeroVenue demoSignal 10 5 = (mkError m, demoSignal) ∧
      (mkError m).success = false ∧ (mkError m).order_params = none ∧
      (m = "Could not fetch account balance" ∨ m = "No USDT balance found") ∧
      ∀ sub, place_order { zeroVenue with submit := sub } demoSignal 10 5 =
        (mkError m, demoSignal) :=
  claim2_balance_guard zeroVenue demoSignal 10 5
    (Or.inr (Or.inr ⟨_, _, rfl, rfl, rfl⟩))

/-- Claim C10: a balance snapshot whose coin list has no USDT entry is
treated exactly like a zero balance: the run fails with the same
`No USDT balance found` error, for every submission behaviour of the
venue, so no order is submitted. -/
theorem claim10_no_usdt_entry (v : Venue) (s : TradingSignal) (lev : ℤ) (risk : ℚ)
    (r : BalanceResult) (acct : BalanceAccount)
    (h1 : get_account_balance v = BalanceResp.withResult r)
    (h2 : r.list.head? = some acct)
    (h3 : acct.coin.find? (fun c => c.coin = "USDT") = none) :
    place_order v s lev risk = (mkError "No USDT balance found", s) ∧
    ∀ sub, place_order { v with submit := sub } s lev risk =
      (mkError "No USDT balance found", s) := by
  have hscan : scanUsdt acct.coin = Except.ok 0 := by
    unfold scanUsdt
    rw [h3]
  have hf : fetch_usdt v = Except.error "No USDT balance found" := by
    unfold fetch_usdt
    rw [h1]
    dsimp only
    rw [h2]
    dsimp only
    rw [hscan]
    dsimp only
    rw [if_pos rfl]
  exact ⟨place_order_of_fetch_error v s lev risk _ hf,
    fun sub => place_order_of_fetch_error _ s lev risk _
      ((fetch_usdt_submit_free v sub).trans hf)⟩

/-- Witness for C10: a wallet holding only BTC. -/
theorem claim10_no_usdt_entry_witness :
    place_order noUsdtVenue demoSignal 10 5 =
      (mkError "No USDT balance found", demoSignal) ∧
    ∀ sub, place_order { noUsdtVenue with submit := sub } demoSignal 10 5 =
      (mkError "No USDT balance found", demoSignal) :=
  claim10_no_usdt_entry noUsdtVenue demoSignal 10 5 _ _ rfl rfl rfl

/-- Claim C7: in every assembled order request, the take-profit field
is present exactly when the signal's take profit is strictly positive,
the stop-loss field exactly when the stop loss is strictly positive,
and both are absent when both are zero. -/
theorem claim7_tp_sl_fields (v : Venue) (s : TradingSignal) (lev : ℤ) (risk : ℚ)
    (p : OrderParams) (hp : (place_order v s lev risk).1.order_params = some p) :
    p.takeProfit = (if s.take_profit > 0 then some s.take_profit else none) ∧
    p.stopLoss = (if s.stop_loss > 0 then some s.stop_loss else none) ∧
    (s.take_profit = 0 → s.stop_loss = 0 →
      p.takeProfit = none ∧ p.stopLoss = none) := by
  rcases place_order_spec v s lev risk with ⟨e, _, heq⟩ | ⟨b, hb, hrest⟩
  · rw [heq] at hp
    simp [mkError] at hp
  · rcases hrest with ⟨e, _, heq⟩ | ⟨s1, hs1, hrest⟩
    · rw [heq] at hp
      simp [mkError] at hp
    · obtain ⟨-, -, -, htp, hsl, -, -⟩ := resolve_entry_fields v s s1 hs1
      rcases hrest with ⟨hepn, heq⟩ | ⟨entry, hentry, hrest⟩
      · rw [heq] at hp
        simp [mkError] at hp
      · rcases hrest with ⟨h0, heq⟩ | ⟨h0, hrest⟩
        · rw [heq] at hp
          simp [mkError] at hp
        · rcases hrest with ⟨e, _, heq⟩ | ⟨resp, hresp, heq⟩
          · rw [heq] at hp
            simp [mkError] at hp
          · rw [heq] at hp
            simp only [Option.some.injEq] at hp
            subst hp
            refine ⟨by rw [htp], by rw [hsl], fun h1 h2 => ?_⟩
            constructor
            · show (if s1.take_profit > 0 then some s1.take_profit else none) = none
              rw [htp, h1]
              simp
            · show (if s1.stop_loss > 0 then some s1.stop_loss else none) = none
              rw [hsl, h2]
              simp

/-- Witness for C7: the demo signal requests neither TP nor SL and its
assembled request carries neither field. -/
theorem claim7_tp_sl_fields_witness :
    (demoParams.takeProfit =
        (if demoSignal.take_profit > 0 then some demoSignal.take_profit else none) ∧
      demoParams.stopLoss =
        (if demoSignal.stop_loss > 0 then some demoSignal.stop_loss else none) ∧
      (demoSignal.take_profit = 0 → demoSignal.stop_loss = 0 →
        demoParams.takeProfit = none ∧ demoParams.stopLoss = none)) ∧
    demoParams.takeProfit = none ∧ demoParams.stopLoss = none :=
  ⟨claim7_tp_sl_fields demoVenue demoSignal 10 5 demoParams (by rw [demo_run]),
   rfl, rfl⟩

/-- Claim C8: `place_order` leaves every signal field unchanged except
`entry_price`, which is modified only for MARKET orders, where it is
set to the venue's parsed last-traded price. -/
theorem claim8_signal_frame (v : Venue) (s : TradingSignal) (lev : ℤ) (risk : ℚ) :
    (place_order v s lev risk).2 = s ∨
    (s.order_type = "MARKET" ∧ ∃ t e0 q, v.ticker = Except.ok t ∧ t.retCode = 0 ∧
      t.list.head? = some e0 ∧ pyFloat e0.lastPrice = some q ∧
      (place_order v s lev risk).2 = { s with entry_price := some q }) := by
  rcases place_order_spec v s lev risk with ⟨e, _, heq⟩ | ⟨b, hb, hrest⟩
  · rw [heq]
    exact Or.inl rfl
  · rcases hrest with ⟨e, _, heq⟩ | ⟨s1, hs1, hrest⟩
    · rw [heq]
      exact Or.inl rfl
    · have h2 : (place_order v s lev risk).2 = s1 := by
        rcases hrest with ⟨_, heq⟩ | ⟨entry, hentry, hrest⟩
        · rw [heq]
        · rcases hrest with ⟨_, heq⟩ | ⟨_, hrest⟩
          · rw [heq]
          · rcases hrest with ⟨e, _, heq⟩ | ⟨resp, _, heq⟩
            · rw [heq]
            · rw [heq]
      rcases resolve_entry_spec v s s1 hs1 with h | ⟨hm, t, e0, q, ht, hrc, hh, hq, hs1eq⟩
      · exact Or.inl (h2.trans h)
      · exact Or.inr ⟨hm, t, e0, q, ht, hrc, hh, hq, h2.trans hs1eq⟩

/-- Claim C6: neither entry point propagates an exception: a raised
exception inside `parse_signal` becomes `None`, `parse_signal` always
returns a signal or `None`, and `place_order` always returns either a
full submission result or a `success = false` record with an error
message. -/
theorem claim6_never_raises :
    (∀ t e, parse_core t = Except.error e → parse_signal t = none) ∧
    (∀ t, parse_signal t = none ∨ ∃ s, parse_signal t = some s) ∧
    (∀ (v : Venue) (s : TradingSignal) (lev : ℤ) (risk : ℚ),
      ((place_order v s lev risk).1.error = none ∧
        (∃ resp, (place_order v s lev risk).1.result = some resp) ∧
        (∃ p, (place_order v s lev risk).1.order_params = some p)) ∨
      ((place_order v s lev risk).1.success = false ∧
        (place_order v s lev risk).1.result = none ∧
        (place_order v s lev risk).1.order_params = none ∧
        ∃ m, (place_order v s lev risk).1.error = some m)) := by
  refine ⟨parse_signal_of_core_error, fun t => ?_, fun v s lev risk => ?_⟩
  · rcases hps : parse_signal t with _ | s
    · exact Or.inl rfl
    · exact Or.inr ⟨s, rfl⟩
  · rcases place_order_spec v s lev risk with ⟨e, _, heq⟩ | ⟨b, hb, hrest⟩
    · rw [heq]
      exact Or.inr ⟨rfl, rfl, rfl, e, rfl⟩
    · rcases hrest with ⟨e, _, heq⟩ | ⟨s1, hs1, hrest⟩
      · rw [heq]
        exact Or.inr ⟨rfl, rfl, rfl, e, rfl⟩
      · rcases hrest with ⟨hepn, heq⟩ | ⟨entry, hentry, hrest⟩
        · rw [heq]
          exact Or.inr ⟨rfl, rfl, rfl, _, rfl⟩
        · rcases hrest with ⟨h0, heq⟩ | ⟨h0, hrest⟩
          · rw [heq]
            exact Or.inr ⟨rfl, rfl, rfl, _, rfl⟩
          · rcases hrest with ⟨e, _, heq⟩ | ⟨resp, hresp, heq⟩
            · rw [heq]
              exact Or.inr ⟨rfl, rfl, rfl, e, rfl⟩
            · rw [heq]
              exact Or.inl ⟨rfl, ⟨resp, rfl⟩, ⟨_, rfl⟩⟩

/-- Witness for C6: a malformed `TP:` token raises inside the parser
and surfaces as `None`; the zero-balance trader run yields a
structured failure record. -/
theorem claim6_never_raises_witness :
    parse_signal "LONG DOGE/USDT TP: 7..2" = none ∧
    (((place_order zeroVenue demoSignal 10 5).1.error = none ∧
        (∃ resp, (place_order zeroVenue demoSignal 10 5).1.result = some resp) ∧
        (∃ p, (place_order zeroVenue demoSignal 10 5).1.order_params = some p)) ∨
      ((place_order zeroVenue demoSignal 10 5).1.success = false ∧
        (place_order zeroVenue demoSignal 10 5).1.result = none ∧
        (place_order zeroVenue demoSignal 10 5).1.order_params = none ∧
        ∃ m, (place_order zeroVenue demoSignal 10 5).1.error = some m)) :=
  ⟨claim6_never_raises.1 "LONG DOGE/USDT TP: 7..2"
      "could not convert string to float" (by decide),
   claim6_never_raises.2.2 zeroVenue demoSignal 10 5⟩

/-- Counterexample to C4 as stated: this text contains both a
direction keyword and a symbol pattern, yet `parse_signal` returns
`None`, because the matched `SL:` token `4..5` fails float
conversion and the raised exception is converted to `None`. -/
theorem claim4_counterexample :
    findDirection (pyClean "SHORT ETH/USDT SL: 4..5") = some "SHORT" ∧
    findSymbol (pyClean "SHORT ETH/USDT SL: 4..5") = some "ETH" ∧
    parse_signal "SHORT ETH/USDT SL: 4..5" = none := by
  decide

/-- Claim C4 (amended): `parse_signal` returns `None` whenever the
direction keyword or the symbol pattern is missing, and every signal
it returns carries the first direction match and the first symbol
match of the text; a parse can additionally return `None` when a
matched numeric token fails float conversion, so missing mandatory
fields are not the only source of `None`. -/
theorem claim4_mandatory_fields (t : String) :
    ((findDirection (pyClean t) = none ∨ findSymbol (pyClean t) = none) →
      parse_signal t = none) ∧
    (∀ s, parse_signal t = some s →
      findDirection (pyClean t) = some s.direction ∧
      ∃ base, findSymbol (pyClean t) = some base ∧ s.symbol = base ++ "USDT") := by
  constructor
  · rintro (h | h)
    · rcases parse_signal_spec t with ⟨-, hn⟩ | ⟨dir, hd, -⟩
      · exact hn
      · rw [h] at hd
        cases hd
    · rcases parse_signal_spec t with ⟨-, hn⟩ | ⟨dir, -, hrest⟩
      · exact hn
      · rcases hrest with ⟨-, hn⟩ | ⟨base, hb, -⟩
        · exact hn
        · rw [h] at hb
          cases hb
  · intro s hs
    rcases parse_signal_spec t with ⟨-, hn⟩ | ⟨dir, hd, hrest⟩
    · rw [hn] at hs
      cases hs
    · rcases hrest with ⟨-, hn⟩ | ⟨base, hb, hrest⟩
      · rw [hn] at hs
        cases hs
      · rcases hrest with ⟨e, -, hn⟩ | ⟨ep, hep, hrest⟩
        · rw [hn] at hs
          cases hs
        · rcases hrest with ⟨e, -, hn⟩ | ⟨tp, htp, hrest⟩
          · rw [hn] at hs
            cases hs
          · rcases hrest with ⟨e, -, hn⟩ | ⟨sl, hsl, hsome⟩
            · rw [hn] at hs
              cases hs
            · have hrec := Option.some.inj (hsome.symm.trans hs)
              subst hrec
              exact ⟨hd, base, hb, rfl⟩

/-- Witness for C4 (amended): a text with no direction parses to
`None`, and a plain long signal carries its first matches. -/
theorem claim4_mandatory_fields_witness :
    parse_signal "HELLO WORLD" = none ∧
    (findDirection (pyClean "LONG BTC/USDT") = some demoSignal.direction ∧
      ∃ base, findSymbol (pyClean "LONG BTC/USDT") = some base ∧
        demoSignal.symbol = base ++ "USDT") :=
  ⟨(claim4_mandatory_fields "HELLO WORLD").1 (Or.inl (by decide)),
   (claim4_mandatory_fields "LONG BTC/USDT").2 demoSignal (by decide)⟩

/-- Counterexample to C3 as stated: the optional keyword `TP:` is
followed by the malformed numeric token `1.2.3` (it matches the
digit-and-dot pattern but fails float conversion), and this causes the
whole parse to return `None` instead of falling back to the default. -/
theorem claim3_counterexample :
    findDirection (pyClean "LONG BTC/USDT TP: 1.2.3") = some "LONG" ∧
    findSymbol (pyClean "LONG BTC/USDT TP: 1.2.3") = some "BTC" ∧
    searchTp (pyClean "LONG BTC/USDT TP: 1.2.3") = some "1.2.3" ∧
    parse_signal "LONG BTC/USDT TP: 1.2.3" = none := by
  decide

/-- Claim C3 (amended): with direction and symbol present, an
optional-field keyword whose following token fails to match the
numeric pattern (so the keyword search finds nothing) leaves exactly
that field at its default and never makes the parse fail; only a
token that matches the digit-and-dot pattern but fails float
conversion aborts the parse. -/
theorem claim3_optional_fallback (t : String)
    (hd : findDirection (pyClean t) ≠ none)
    (hs : findSymbol (pyClean t) ≠ none)
    (hlim : ∀ tok, searchLimitPrice (pyClean t) = some tok → (pyFloat tok).isSome)
    (htp : ∀ tok, searchTp (pyClean t) = some tok → (pyFloat tok).isSome)
    (hsl : ∀ tok, searchSl (pyClean t) = some tok → (pyFloat tok).isSome) :
    ∃ s, parse_signal t = some s ∧
      (searchLeverage (pyClean t) = none → s.leverage = 10) ∧
      (searchTp (pyClean t) = none → s.take_profit = 0) ∧
      (searchSl (pyClean t) = none → s.stop_loss = 0) ∧
      (searchRisk (pyClean t) = none → s.risk_percentage = 5) := by
  obtain ⟨ep, hepok⟩ := limitPriceOf_ok (pyClean t) hlim
  obtain ⟨tp, htpok⟩ := tpOf_ok (pyClean t) htp
  obtain ⟨sl, hslok⟩ := slOf_ok (pyClean t) hsl
  rcases parse_signal_spec t with ⟨hdn, -⟩ | ⟨dir, hdir, hrest⟩
  · exact absurd hdn hd
  · rcases hrest with ⟨hsn, -⟩ | ⟨base, hb, hrest⟩
    · exact absurd hsn hs
    · rcases hrest with ⟨e, he, -⟩ | ⟨ep1, hep1, hrest⟩
      · rw [hepok] at he
        cases he
      · rcases hrest with ⟨e, he, -⟩ | ⟨tp1, htp1, hrest⟩
        · rw [htpok] at he
          cases he
        · rcases hrest with ⟨e, he, -⟩ | ⟨sl1, hsl1, hsome⟩
          · rw [hslok] at he
            cases he
          · refine ⟨_, hsome, ?_, ?_, ?_, ?_⟩
            · intro hnone
              exact leverageOf_of_search_none _ hnone
            · intro hnone
              exact Except.ok.inj
                (htp1.symm.trans (tpOf_of_search_none _ hnone))
            · intro hnone
              exact Except.ok.inj
                (hsl1.symm.trans (slOf_of_search_none _ hnone))
            · intro hnone
              exact riskOf_of_search_none _ hnone

/-- Witness for C3 (amended): every optional keyword is followed by a
non-numeric token, so none of the numeric searches match, the parse
succeeds, and all four optional fields take their defaults. -/
theorem claim3_optional_fallback_witness :
    (∃ s,
      parse_signal "LONG BTC/USDT TP: ABC LEVERAGE: TEN USE LOTS% OF CAPITAL SL: XYZ" =
        some s ∧
      (searchLeverage (pyClean "LONG BTC/USDT TP: ABC LEVERAGE: TEN USE LOTS% OF CAPITAL SL: XYZ") = none → s.leverage = 10) ∧
      (searchTp (pyClean "LONG BTC/USDT TP: ABC LEVERAGE: TEN USE LOTS% OF CAPITAL SL: XYZ") = none → s.take_profit = 0) ∧
      (searchSl (pyClean "LONG BTC/USDT TP: ABC LEVERAGE: TEN USE LOTS% OF CAPITAL SL: XYZ") = none → s.stop_loss = 0) ∧
      (searchRisk (pyClean "LONG BTC/USDT TP: ABC LEVERAGE: TEN USE LOTS% OF CAPITAL SL: XYZ") = none → s.risk_percentage = 5)) ∧
    parse_signal "LONG BTC/USDT TP: ABC LEVERAGE: TEN USE LOTS% OF CAPITAL SL: XYZ" =
      some { direction := "LONG", symbol := "BTCUSDT", order_type := "MARKET" } :=
  ⟨claim3_optional_fallback
      "LONG BTC/USDT TP: ABC LEVERAGE: TEN USE LOTS% OF CAPITAL SL: XYZ"
      (by decide) (by decide)
      (by
        intro tok h
        rw [show searchLimitPrice (pyClean "LONG BTC/USDT TP: ABC LEVERAGE: TEN USE LOTS% OF CAPITAL SL: XYZ") = none from by decide] at h
        cases h)
      (by
        intro tok h
        rw [show searchTp (pyClean "LONG BTC/USDT TP: ABC LEVERAGE: TEN USE LOTS% OF CAPITAL SL: XYZ") = none from by decide] at h
        cases h)
      (by
        intro tok h
        rw [show searchSl (pyClean "LONG BTC/USDT TP: ABC LEVERAGE: TEN USE LOTS% OF CAPITAL SL: XYZ") = none from by decide] at h
        cases h),
   by decide⟩

/-- The signal parsed from `LONG BTC/USDT LIMIT ORDER 45000.5`. -/
def demoLimitSignal : TradingSignal :=
  { direction := "LONG", symbol := "BTCUSDT", order_type := "LIMIT"
    entry_price := some (((45000 : ℕ) : ℚ) + ((5 : ℕ) : ℚ) / (10 : ℚ) ^ 1) }

/-- Counterexample to C5 as stated: `LIMIT ORDER` followed by no
numeric token yields a signal with `order_type = LIMIT` whose
`entry_price` is unset, not a positive decimal. -/
theorem claim5_counterexample :
    parse_signal "LONG BTC/USDT LIMIT ORDER SOON" = some
      { direction := "LONG", symbol := "BTCUSDT", order_type := "LIMIT"
        entry_price := none } := by
  decide

/-- Claim C5 (amended): a parsed signal has `order_type = LIMIT`
exactly when the text contains `LIMIT ORDER`; MARKET signals always
have `entry_price` unset; and a LIMIT signal's `entry_price` is the
float conversion of the first matched price token after
`LIMIT ORDER`, which is unset when no numeric token follows (and
which may be any non-negative parsed value, not necessarily
positive). -/
theorem claim5_entry_price (t : String) (s : TradingSignal)
    (h : parse_signal t = some s) :
    (s.order_type = "LIMIT" ↔ hasLimitOrder (pyClean t) = true) ∧
    (s.order_type = "MARKET" → s.entry_price = none) ∧
    (hasLimitOrder (pyClean t) = true →
      s.entry_price = (searchLimitPrice (pyClean t)).bind (fun tok => pyFloat tok)) := by
  rcases parse_signal_spec t with ⟨-, hn⟩ | ⟨dir, hd, hrest⟩
  · rw [hn] at h
    cases h
  · rcases hrest with ⟨-, hn⟩ | ⟨base, hb, hrest⟩
    · rw [hn] at h
      cases h
    · rcases hrest with ⟨e, -, hn⟩ | ⟨ep, hep, hrest⟩
      · rw [hn] at h
        cases h
      · rcases hrest with ⟨e, -, hn⟩ | ⟨tp, htp, hrest⟩
        · rw [hn] at h
          cases h
        · rcases hrest with ⟨e, -, hn⟩ | ⟨sl, hsl, hsome⟩
          · rw [hn] at h
            cases h
          · have hrec := Option.some.inj (hsome.symm.trans h)
            subst hrec
            rcases hl : hasLimitOrder (pyClean t) with _ | _
            · refine ⟨iff_of_false (by decide : ¬("MARKET" = "LIMIT"))
                (by decide : ¬(false = true)), fun _ => ?_, fun hcontra => ?_⟩
              · exact limitPriceOf_of_not_limit (pyClean t) ep hl hep
              · exact Bool.noConfusion hcontra
            · refine ⟨iff_of_true rfl rfl, fun hmkt => ?_, fun _ => ?_⟩
              · exact absurd hmkt (by decide : ¬("LIMIT" = "MARKET"))
              · exact limitPriceOf_of_limit (pyClean t) ep hl hep

/-- Witness for C5 (amended), at the spec's own example: the text
`LONG BTC/USDT LIMIT ORDER 45000.5` parses to a LIMIT signal whose
entry price is 45000.5. -/
theorem claim5_entry_price_witness :
    ((demoLimitSignal.order_type = "LIMIT" ↔
        hasLimitOrder (pyClean "LONG BTC/USDT LIMIT ORDER 45000.5") = true) ∧
      (demoLimitSignal.order_type = "MARKET" → demoLimitSignal.entry_price = none) ∧
      (hasLimitOrder (pyClean "LONG BTC/USDT LIMIT ORDER 45000.5") = true →
        demoLimitSignal.entry_price =
          (searchLimitPrice (pyClean "LONG BTC/USDT LIMIT ORDER 45000.5")).bind
            (fun tok => pyFloat tok))) ∧
    demoLimitSignal.entry_price = some ((90001 : ℚ) / 2) :=
  ⟨claim5_entry_price "LONG BTC/USDT LIMIT ORDER 45000.5" demoLimitSignal rfl,
   by
    show some _ = some _
    norm_num⟩

/-- Counterexample to C9 as stated: this text has a direction and a
symbol and none of the four optional keyword patterns, yet
`parse_signal` returns `None` (rather than a signal with default
fields), because the `LIMIT ORDER` price token `1..2` fails float
conversion. -/
theorem claim9_counterexample :
    findDirection (pyClean "LONG BTC/USDT LIMIT ORDER 1..2") = some "LONG" ∧
    findSymbol (pyClean "LONG BTC/USDT LIMIT ORDER 1..2") = some "BTC" ∧
    searchLeverage (pyClean "LONG BTC/USDT LIMIT ORDER 1..2") = none ∧
    searchTp (pyClean "LONG BTC/USDT LIMIT ORDER 1..2") = none ∧
    searchSl (pyClean "LONG BTC/USDT LIMIT ORDER 1..2") = none ∧
    searchRisk (pyClean "LONG BTC/USDT LIMIT ORDER 1..2") = none ∧
    parse_signal "LONG BTC/USDT LIMIT ORDER 1..2" = none := by
  decide

/-- Claim C9 (amended): when none of the `LEVERAGE:`, `TP:`, `SL:`
and `USE ...% OF CAPITAL` patterns match, every signal `parse_signal`
returns carries the defaults: leverage 10, take profit 0, stop loss
0, risk percentage 5; the parse itself can still return `None` when a
matched `LIMIT ORDER` price token fails float conversion. -/
theorem claim9_defaults (t : String) (s : TradingSignal)
    (h : parse_signal t = some s)
    (hl : searchLeverage (pyClean t) = none)
    (htp : searchTp (pyClean t) = none)
    (hsl : searchSl (pyClean t) = none)
    (hr : searchRisk (pyClean t) = none) :
    s.leverage = 10 ∧ s.take_profit = 0 ∧ s.stop_loss = 0 ∧
    s.risk_percentage = 5 := by
  rcases parse_signal_spec t with ⟨-, hn⟩ | ⟨dir, hd, hrest⟩
  · rw [hn] at h
    cases h
  · rcases hrest with ⟨-, hn⟩ | ⟨base, hb, hrest⟩
    · rw [hn] at h
      cases h
    · rcases hrest with ⟨e, -, hn⟩ | ⟨ep, hep, hrest⟩
      · rw [hn] at h
        cases h
      · rcases hrest with ⟨e, -, hn⟩ | ⟨tp, htpok, hrest⟩
        · rw [hn] at h
          cases h
        · rcases hrest with ⟨e, -, hn⟩ | ⟨sl, hslok, hsome⟩
          · rw [hn] at h
            cases h
          · have hrec := Option.some.inj (hsome.symm.trans h)
            subst hrec
            refine ⟨?_, ?_, ?_, ?_⟩
            · exact leverageOf_of_search_none _ hl
            · exact Except.ok.inj (htpok.symm.trans (tpOf_of_search_none _ htp))
            · exact Except.ok.inj (hslok.symm.trans (slOf_of_search_none _ hsl))
            · exact riskOf_of_search_none _ hr

/-- Witness for C9 (amended): the plain text `LONG BTC/USDT` parses
to a signal with all four defaults. -/
theorem claim9_defaults_witness :
    demoSignal.leverage = 10 ∧ demoSignal.take_profit = 0 ∧
    demoSignal.stop_loss = 0 ∧ demoSignal.risk_percentage = 5 :=
  claim9_defaults "LONG BTC/USDT" demoSignal (by decide)
    (by decide) (by decide) (by decide) (by decide)

end TradingBot
